import Mathlib

/-!
Verification of the cusb USB descriptor library (ress059/cusb) against its
natural-language specification. The C sources under src/ are embedded
shallowly: descriptor structs become Lean structures over `Nat` fields
(the C fields are uint8_t/uint16_t; size_t arithmetic is modelled exactly,
with wraparound at 2^64 where the source subtracts from unsigned values),
linked lists (`ecu_dlist`) become Lean lists in attachment order, and every
function that can fire `ECU_RUNTIME_ASSERT` returns an `Option` whose `none`
models the assertion firing.
-/

/-- Modulus of the C `size_t` type (taken as 64 bits; every divergence proved
below is qualitatively identical at any unsigned width). -/
def size_t_mod : Nat := 18446744073709551616

/-- Descriptor type code from `inc/cusb/descriptors.h`. -/
def CUSB_DEVICE_DESCRIPTOR_TYPE : Nat := 1

/-- Descriptor type code from `inc/cusb/descriptors.h`. -/
def CUSB_CONFIGURATION_DESCRIPTOR_TYPE : Nat := 2

/-- Descriptor type code from `inc/cusb/descriptors.h`. -/
def CUSB_STRING_DESCRIPTOR_TYPE : Nat := 3

/-- Descriptor type code from `inc/cusb/descriptors.h`. -/
def CUSB_INTERFACE_DESCRIPTOR_TYPE : Nat := 4

/-- Descriptor type code from `inc/cusb/descriptors.h`. -/
def CUSB_ENDPOINT_DESCRIPTOR_TYPE : Nat := 5

/-- String indices reserved by `enum cusbd_string_id` in `inc/cusb/cusbd.h`. -/
def CUSBD_MANUFACTURER_STRING_ID : Nat := 1

/-- String indices reserved by `enum cusbd_string_id` in `inc/cusb/cusbd.h`. -/
def CUSBD_PRODUCT_STRING_ID : Nat := 2

/-- String indices reserved by `enum cusbd_string_id` in `inc/cusb/cusbd.h`. -/
def CUSBD_SERIAL_NUMBER_STRING_ID : Nat := 3

/-- First string index available for user strings (`inc/cusb/cusbd.h`). -/
def CUSBD_USER_STRING_ID_BEGIN : Nat := 4

/-- Modelled from the spec: the `ecu_dnode` intrusive-list node of the ECU
library, an external collaborator whose sources are not in this repository.
The only state of it this development needs is whether the node is currently
linked into some list: the repository's comments state "ECU library asserts
if node is already within a list", matching the spec's rule that "a node may
be owned by at most one parent at a time; attaching an already-owned node is
a programming error" (`AlreadyOwned`). -/
structure ecu_dnode where
  in_list : Bool
deriving DecidableEq

/-- `struct cusb_device_descriptor` (`inc/cusb/cusbd.h`), 18 bytes packed.
Fields are uint8_t except the uint16_t bcdUSB, idVendor, idProduct, bcdDevice. -/
structure cusb_device_descriptor where
  bLength : Nat
  bDescriptorType : Nat
  bcdUSB : Nat
  bDeviceClass : Nat
  bDeviceSubClass : Nat
  bDeviceProtocol : Nat
  bMaxPacketSize0 : Nat
  idVendor : Nat
  idProduct : Nat
  bcdDevice : Nat
  iManufacturer : Nat
  iProduct : Nat
  iSerialNumber : Nat
  bNumConfigurations : Nat
deriving DecidableEq

/-- `struct cusb_configuration_descriptor` (`inc/cusb/configuration.h`), 9 bytes. -/
structure cusb_configuration_descriptor where
  bLength : Nat
  bDescriptorType : Nat
  wTotalLength : Nat
  bNumInterfaces : Nat
  bConfigurationValue : Nat
  iConfiguration : Nat
  bmAttributes : Nat
  bMaxPower : Nat
deriving DecidableEq

/-- `struct cusb_interface_descriptor` (`inc/cusb/interface.h`), 9 bytes. -/
structure cusb_interface_descriptor where
  bLength : Nat
  bDescriptorType : Nat
  bInterfaceNumber : Nat
  bAlternateSetting : Nat
  bNumEndpoints : Nat
  bInterfaceClass : Nat
  bInterfaceSubClass : Nat
  bInterfaceProtocol : Nat
  iInterface : Nat
deriving DecidableEq

/-- `struct cusb_endpoint_descriptor` (`inc/cusb/endpoint.h`), 7 bytes. -/
structure cusb_endpoint_descriptor where
  bLength : Nat
  bDescriptorType : Nat
  bEndpointAddress : Nat
  bmAttributes : Nat
  wMaxPacketSize : Nat
  bInterval : Nat
deriving DecidableEq

/-- `struct cusb_string_descriptor` (`inc/cusb/string.h`). `bString` is the
UTF-16 code-unit array the descriptor points at (code units as numbers in
host-native form; a literal built by `CUSB_STRING_DESCRIPTOR_CTOR` carries a
trailing NUL code unit). -/
structure cusb_string_descriptor where
  bLength : Nat
  bDescriptorType : Nat
  bString : List Nat
deriving DecidableEq

/-- `struct cusb_string_descriptor_zero` (`inc/cusb/string.h`). `wLANGID` is
the array of 16-bit language ID codes the descriptor points at. -/
structure cusb_string_descriptor_zero where
  bLength : Nat
  bDescriptorType : Nat
  wLANGID : List Nat
deriving DecidableEq

/-- `struct cusb_string` (`inc/cusb/string.h`). -/
structure cusb_string where
  dnode : ecu_dnode
  descriptor : cusb_string_descriptor
  wLANGID : Nat
deriving DecidableEq

/-- `struct cusb_string_zero` (`inc/cusb/string.h`). -/
structure cusb_string_zero where
  descriptor : cusb_string_descriptor_zero
deriving DecidableEq

/-- `struct cusb_endpoint` (`inc/cusb/endpoint.h`): dnode, a copy of the
descriptor, and the integrator-supplied signed id. -/
structure cusb_endpoint where
  dnode : ecu_dnode
  descriptor : cusb_endpoint_descriptor
  id : Int
deriving DecidableEq

/-- `struct cusb_alternate_interface` (`inc/cusb/interface.h`): dnode,
interface descriptor copy, owned endpoints and strings in attachment order. -/
structure cusb_alternate_interface where
  dnode : ecu_dnode
  descriptor : cusb_interface_descriptor
  endpoints : List cusb_endpoint
  strings : List cusb_string
deriving DecidableEq

/-- `struct cusb_interface` (`inc/cusb/interface.h`): dnode, descriptor copy,
owned alternate interfaces, endpoints and strings in attachment order. -/
structure cusb_interface where
  dnode : ecu_dnode
  descriptor : cusb_interface_descriptor
  alternate_interfaces : List cusb_alternate_interface
  endpoints : List cusb_endpoint
  strings : List cusb_string
deriving DecidableEq

/-- `struct cusb_configuration` (`inc/cusb/configuration.h`). -/
structure cusb_configuration where
  dnode : ecu_dnode
  descriptor : cusb_configuration_descriptor
  interfaces : List cusb_interface
  strings : List cusb_string
deriving DecidableEq

/-- `struct cusbd` (`inc/cusb/cusbd.h`), without the hsm scaffolding and the
hardware callback record (opaque function pointers, irrelevant to every claim).
`string0 = none` models `CUSBD_STRING_ZERO_UNUSED`. -/
structure cusbd where
  descriptor : cusb_device_descriptor
  string0 : Option cusb_string_zero
  configurations : List cusb_configuration
  manufacturer_strings : List cusb_string
  product_strings : List cusb_string
  serial_number_strings : List cusb_string
deriving DecidableEq

/-- `device_descriptor_valid` (`src/cusbd.c` lines 54-73). The source text has
a misplaced parenthesis in the `if`, but the intended conjunction is
unambiguous from its layout: bLength and bDescriptorType correct and
bMaxPacketSize0 one of 8, 16, 32, 64. -/
def device_descriptor_valid (descriptor : cusb_device_descriptor) : Bool :=
  descriptor.bLength == 18 &&
  descriptor.bDescriptorType == CUSB_DEVICE_DESCRIPTOR_TYPE &&
  (descriptor.bMaxPacketSize0 == 8 || descriptor.bMaxPacketSize0 == 16 ||
   descriptor.bMaxPacketSize0 == 32 || descriptor.bMaxPacketSize0 == 64)

/-- `configuration_descriptor_valid` (`src/configuration.c` lines 47-62). -/
def configuration_descriptor_valid (descriptor : cusb_configuration_descriptor) : Bool :=
  descriptor.bLength == 9 &&
  descriptor.bDescriptorType == CUSB_CONFIGURATION_DESCRIPTOR_TYPE

/-- `interface_descriptor_valid` (`src/interface.c` lines 47-63). -/
def interface_descriptor_valid (descriptor : cusb_interface_descriptor) : Bool :=
  descriptor.bLength == 9 &&
  descriptor.bDescriptorType == CUSB_INTERFACE_DESCRIPTOR_TYPE

/-- `endpoint_descriptor_valid` (`src/endpoint.c` lines 86-130), translated
exactly as written: the source copies `descriptor->bEndpointAddress` into the
local `bEndpointAddress` and then applies every `BMATTRIBUTES_*` bitmask to
that local — the switch scrutinee is `bEndpointAddress & 3` and the sync/usage
bit tests also read `bEndpointAddress`; the `bmAttributes` field is never
read. Masks: number 0x0F, reserved 0x70, transfer type 0x03, sync 0x0C,
usage 0x30; the switch's `default` is unreachable for a two-bit scrutinee. -/
def endpoint_descriptor_valid (descriptor : cusb_endpoint_descriptor) : Bool :=
  let bEndpointAddress := descriptor.bEndpointAddress
  if descriptor.bLength == 7 &&
     descriptor.bDescriptorType == CUSB_ENDPOINT_DESCRIPTOR_TYPE &&
     decide (bEndpointAddress &&& 15 > 0) &&
     bEndpointAddress &&& 112 == 0 then
    if bEndpointAddress &&& 3 == 1 then
      !(bEndpointAddress &&& 48 == 48)
    else
      (bEndpointAddress &&& 12 == 0) || (bEndpointAddress &&& 48 == 0)
  else
    false

/-- The attribute-combination check the claim (and the source's own constant
names and doc comments) describe, applied to the `bmAttributes` byte: transfer
type in bits 0-1, sync type in bits 2-3, usage type in bits 4-5; for
control/bulk/interrupt transfers sync or usage must be zero, for isochronous
the usage value must not be the reserved 0b11. Stated for comparison with
`endpoint_descriptor_valid`, which reads `bEndpointAddress` instead. -/
def spec_bmAttributes_legal (bmAttributes : Nat) : Bool :=
  if bmAttributes &&& 3 == 1 then
    !(bmAttributes &&& 48 == 48)
  else
    (bmAttributes &&& 12 == 0) || (bmAttributes &&& 48 == 0)

/-- `string_descriptor_zero_valid` (`src/string.c` lines 84-101).
`array_size = bLength - 1 - 1` is computed in `size_t`, so it wraps for
bLength < 2. The C also checks that the `wLANGID` pointer is non-null, which
has no counterpart for a list-valued field. -/
def string_descriptor_zero_valid (descriptor : cusb_string_descriptor_zero) : Bool :=
  let array_size := (descriptor.bLength + size_t_mod - 2) % size_t_mod
  decide (array_size ≥ 2) &&
  array_size % 2 == 0 &&
  descriptor.bDescriptorType == CUSB_STRING_DESCRIPTOR_TYPE

/-- `string_descriptor_valid` (`src/string.c` lines 103-122).
`array_size = bLength - 1 - 1 - sizeof(cusb_utf16_t)` in `size_t`, wrapping
for bLength < 4. The C also checks that the `bString` pointer is non-null,
which has no counterpart for a list-valued field. -/
def string_descriptor_valid (descriptor : cusb_string_descriptor) : Bool :=
  let array_size := (descriptor.bLength + size_t_mod - 4) % size_t_mod
  decide (array_size ≥ 2) &&
  array_size % 2 == 0 &&
  descriptor.bDescriptorType == CUSB_STRING_DESCRIPTOR_TYPE

/-- `cusb_string_zero_ctor` (`src/string.c` lines 128-134): asserts the
supplied descriptor valid, then stores the reference. -/
def cusb_string_zero_ctor (descriptor : cusb_string_descriptor_zero) :
    Option cusb_string_zero :=
  if string_descriptor_zero_valid descriptor then
    some { descriptor := descriptor }
  else
    none

/-- `cusb_string_zero_valid` (`src/string.c` lines 136-142). -/
def cusb_string_zero_valid (me : cusb_string_zero) : Bool :=
  string_descriptor_zero_valid me.descriptor

/-- `cusb_string_zero_langid_count` (`src/string.c` lines 163-173):
`array_size = bLength - 1 - 1` in `size_t`; asserts the size divides into
whole 2-byte codes, then divides. -/
def cusb_string_zero_langid_count (me : cusb_string_zero) : Option Nat :=
  let array_size := (me.descriptor.bLength + size_t_mod - 2) % size_t_mod
  if array_size % 2 == 0 then
    some (array_size / 2)
  else
    none

/-- Little-endian bytes of a 16-bit value, as `ECU_CPU_TO_LE16_RUNTIME`
followed by a 2-byte memcpy lays them out in the buffer. -/
def le16_bytes (x : Nat) : List Nat :=
  [x % 256, x / 256 % 256]

/-- `cusb_string_zero_send` (`src/string.c` lines 175-196): asserts validity
and `len >= bLength`, then emits bLength, bDescriptorType, and each language
ID in little endian; the result is the byte list written to the buffer. -/
def cusb_string_zero_send (me : cusb_string_zero) (len : Nat) : Option (List Nat) :=
  if cusb_string_zero_valid me && decide (len ≥ me.descriptor.bLength) then
    (cusb_string_zero_langid_count me).map (fun count =>
      [me.descriptor.bLength, me.descriptor.bDescriptorType] ++
        ((List.range count).map (fun i =>
          le16_bytes (me.descriptor.wLANGID.getD i 0))).flatten)
  else
    none

/-- `cusb_string_ctor` (`src/string.c` lines 202-211): asserts the supplied
descriptor valid, constructs the dnode unlinked, stores the reference. -/
def cusb_string_ctor (descriptor : cusb_string_descriptor) (wLANGID : Nat) :
    Option cusb_string :=
  if string_descriptor_valid descriptor then
    some { dnode := { in_list := false }, descriptor := descriptor, wLANGID := wLANGID }
  else
    none

/-- `cusb_string_valid` (`src/string.c` lines 213-219). -/
def cusb_string_valid (me : cusb_string) : Bool :=
  string_descriptor_valid me.descriptor

/-- `cusb_string_character_count` (`src/string.c` lines 227-237):
`array_size = bLength - 1 - 1` in `size_t` (the NUL code unit is not
subtracted here, but `bLength` does not include it); asserts evenness. -/
def cusb_string_character_count (me : cusb_string) : Option Nat :=
  let array_size := (me.descriptor.bLength + size_t_mod - 2) % size_t_mod
  if array_size % 2 == 0 then
    some (array_size / 2)
  else
    none

/-- `cusb_string_send` (`src/string.c` lines 239-262): asserts validity and
`len >= bLength`, then emits bLength, bDescriptorType, and
`cusb_string_character_count` code units of `bString` in little endian. -/
def cusb_string_send (me : cusb_string) (len : Nat) : Option (List Nat) :=
  if cusb_string_valid me && decide (len ≥ me.descriptor.bLength) then
    (cusb_string_character_count me).map (fun count =>
      [me.descriptor.bLength, me.descriptor.bDescriptorType] ++
        ((List.range count).map (fun i =>
          le16_bytes (me.descriptor.bString.getD i 0))).flatten)
  else
    none

/-- `CUSB_STRING_DESCRIPTOR_CTOR(string_)` (`inc/cusb/string.h` lines 71-78):
for a UTF-16 literal of `s` code units plus the trailing NUL the macro sets
`bLength = 1 + 1 + sizeof(u"...") - sizeof(cusb_utf16_t) = 2 + 2 * s.length`
(a uint8_t initialiser, hence mod 256) and stores the literal, NUL included. -/
def CUSB_STRING_DESCRIPTOR_CTOR (s : List Nat) : cusb_string_descriptor :=
  { bLength := (2 + 2 * s.length) % 256,
    bDescriptorType := CUSB_STRING_DESCRIPTOR_TYPE,
    bString := s ++ [0] }

/-- `CUSB_STRING_DESCRIPTOR_ZERO_CTOR(languages_)` (`inc/cusb/string.h` lines
53-60): the macro sets `bLength = 1 + 1 + sizeof(languages_)/sizeof(languages_[0])`,
i.e. 2 plus the ELEMENT COUNT of the language array (each element is 2 bytes
wide, but the division removes that factor); uint8_t initialiser, mod 256. -/
def CUSB_STRING_DESCRIPTOR_ZERO_CTOR (languages : List Nat) : cusb_string_descriptor_zero :=
  { bLength := (2 + languages.length) % 256,
    bDescriptorType := CUSB_STRING_DESCRIPTOR_TYPE,
    wLANGID := languages }

/-- `cusb_configuration_ctor` (`src/configuration.c` lines 75-85), translated
exactly as written: the validity assertion reads `&me->descriptor` — the
descriptor field of the object under construction, holding whatever it held
before the call — and not the supplied `descriptor` argument; only afterwards
is the argument copied in. `me` is the pre-call object. -/
def cusb_configuration_ctor (me : cusb_configuration)
    (descriptor : cusb_configuration_descriptor) : Option cusb_configuration :=
  if configuration_descriptor_valid me.descriptor then
    some { dnode := { in_list := false }, descriptor := descriptor,
           interfaces := [], strings := [] }
  else
    none

/-- `cusb_configuration_valid` (`src/configuration.c` lines 107-113). -/
def cusb_configuration_valid (me : cusb_configuration) : Bool :=
  configuration_descriptor_valid me.descriptor

/-- `cusb_interface_ctor` (`src/interface.c` lines 76-87): asserts the
supplied descriptor valid, copies it, starts with empty child lists. -/
def cusb_interface_ctor (descriptor : cusb_interface_descriptor) :
    Option cusb_interface :=
  if interface_descriptor_valid descriptor then
    some { dnode := { in_list := false }, descriptor := descriptor,
           alternate_interfaces := [], endpoints := [], strings := [] }
  else
    none

/-- `cusb_interface_valid` (`src/interface.c` lines 130-136). -/
def cusb_interface_valid (me : cusb_interface) : Bool :=
  interface_descriptor_valid me.descriptor

/-- `cusb_alternate_interface_ctor` (`src/interface.c` lines 162-172). -/
def cusb_alternate_interface_ctor (descriptor : cusb_interface_descriptor) :
    Option cusb_alternate_interface :=
  if interface_descriptor_valid descriptor then
    some { dnode := { in_list := false }, descriptor := descriptor,
           endpoints := [], strings := [] }
  else
    none

/-- `cusb_alternate_interface_valid` (`src/interface.c` lines 205-211). -/
def cusb_alternate_interface_valid (me : cusb_alternate_interface) : Bool :=
  interface_descriptor_valid me.descriptor

/-- `cusb_endpoint_ctor` (`src/endpoint.c` lines 149-160): asserts the
supplied descriptor valid and `id >= CUSB_ENDPOINT_USER_ID_BEGIN` (0). -/
def cusb_endpoint_ctor (descriptor : cusb_endpoint_descriptor) (id : Int) :
    Option cusb_endpoint :=
  if endpoint_descriptor_valid descriptor && decide (id ≥ 0) then
    some { dnode := { in_list := false }, descriptor := descriptor, id := id }
  else
    none

/-- `cusb_endpoint_valid` (`src/endpoint.c` lines 162-168). -/
def cusb_endpoint_valid (me : cusb_endpoint) : Bool :=
  endpoint_descriptor_valid me.descriptor

/-- `cusb_interface_add_endpoint` (`src/interface.c` lines 99-118): walks the
interface's endpoint list asserting every existing `bEndpointAddress` differs
from the new endpoint's, then `ecu_dlist_push_back` (modelled from the spec
and the repository's comments: asserts the node is not already within a list,
appends it and marks it linked). Returns the updated interface together with
the now-linked endpoint object. -/
def cusb_interface_add_endpoint (me : cusb_interface) (endpoint : cusb_endpoint) :
    Option (cusb_interface × cusb_endpoint) :=
  if me.endpoints.all
      (fun e => e.descriptor.bEndpointAddress != endpoint.descriptor.bEndpointAddress) then
    if endpoint.dnode.in_list then
      none
    else
      let linked := { endpoint with dnode := { in_list := true } }
      some ({ me with endpoints := me.endpoints ++ [linked] }, linked)
  else
    none

/-- `cusb_alternate_interface_add_endpoint` (`src/interface.c` lines 174-193):
identical duplicate-address walk and push_back on an alternate interface. -/
def cusb_alternate_interface_add_endpoint (me : cusb_alternate_interface)
    (endpoint : cusb_endpoint) : Option (cusb_alternate_interface × cusb_endpoint) :=
  if me.endpoints.all
      (fun e => e.descriptor.bEndpointAddress != endpoint.descriptor.bEndpointAddress) then
    if endpoint.dnode.in_list then
      none
    else
      let linked := { endpoint with dnode := { in_list := true } }
      some ({ me with endpoints := me.endpoints ++ [linked] }, linked)
  else
    none

/-- `cusb_alternate_interface_size` (`src/interface.c` lines 213-219):
its own 9-byte descriptor plus 7 bytes per owned endpoint. -/
def cusb_alternate_interface_size (me : cusb_alternate_interface) : Nat :=
  9 + me.endpoints.length * 7

/-- `cusb_interface_size` (`src/interface.c` lines 138-156), translated
exactly as written: `bytes` is initialised to sizeof(interface descriptor)
= 9, but the next statement is an assignment (`bytes = ecu_dlist_size(...) * 7`,
not `+=`), discarding the 9; the alternate-interface sizes are then added. -/
def cusb_interface_size (me : cusb_interface) : Nat :=
  me.endpoints.length * 7 +
    (me.alternate_interfaces.map cusb_alternate_interface_size).sum

/-- `cusb_configuration_size` (`src/configuration.c` lines 121-135): its own
9-byte descriptor plus the `cusb_interface_size` of every owned interface. -/
def cusb_configuration_size (me : cusb_configuration) : Nat :=
  9 + (me.interfaces.map cusb_interface_size).sum

/-- `cusb_configuration_interface_count` (`src/configuration.c` lines 115-119). -/
def cusb_configuration_interface_count (me : cusb_configuration) : Nat :=
  me.interfaces.length

/-- The validations `cusbd_start` performs while iterating one configuration's
subtree (`src/cusbd.c` lines 185-221): the configuration itself, each
interface, each interface's endpoints, each alternate interface and its
endpoints. No list of strings is ever iterated. -/
def cusbd_start_subtree_valid (c : cusb_configuration) : Bool :=
  cusb_configuration_valid c &&
  c.interfaces.all (fun i =>
    cusb_interface_valid i &&
    i.endpoints.all cusb_endpoint_valid &&
    i.alternate_interfaces.all (fun ai =>
      cusb_alternate_interface_valid ai &&
      ai.endpoints.all cusb_endpoint_valid))

/-- `cusbd_start` (`src/cusbd.c` lines 154-233): asserts the device descriptor
valid; unconditionally writes the three reserved string IDs into
iManufacturer/iProduct/iSerialNumber; iterates the configuration tree
asserting descriptor validity (per `cusbd_start_subtree_valid` — the local
counters bConfigurationValue, bInterfaceNumber, bAlternateSetting and
wTotalLength are incremented but never stored into any descriptor, so the
iteration mutates nothing); finally asserts at least one configuration and
stores the count (a uint8_t field) into bNumConfigurations. `none` models any
assertion firing. -/
def cusbd_start (me : cusbd) : Option cusbd :=
  if device_descriptor_valid me.descriptor then
    let d0 := { me.descriptor with
                  iManufacturer := CUSBD_MANUFACTURER_STRING_ID,
                  iProduct := CUSBD_PRODUCT_STRING_ID,
                  iSerialNumber := CUSBD_SERIAL_NUMBER_STRING_ID }
    if me.configurations.all cusbd_start_subtree_valid then
      if me.configurations.length ≥ 1 then
        some { me with descriptor :=
                 { d0 with bNumConfigurations := me.configurations.length % 256 } }
      else
        none
    else
      none
  else
    none

/-- `CUSB_CONFIGURATION_DESCRIPTOR_CTOR` (`inc/cusb/configuration.h` lines
66-77): the derived fields wTotalLength, bNumInterfaces, bConfigurationValue
and iConfiguration are initialised to 0. -/
def CUSB_CONFIGURATION_DESCRIPTOR_CTOR (bmAttributes bMaxPower : Nat) :
    cusb_configuration_descriptor :=
  { bLength := 9, bDescriptorType := CUSB_CONFIGURATION_DESCRIPTOR_TYPE,
    wTotalLength := 0, bNumInterfaces := 0, bConfigurationValue := 0,
    iConfiguration := 0, bmAttributes := bmAttributes, bMaxPower := bMaxPower }

/-- `CUSB_INTERFACE_DESCRIPTOR_CTOR` (`inc/cusb/interface.h` lines 48-61):
the derived fields bInterfaceNumber, bAlternateSetting, bNumEndpoints and
iInterface are initialised to 0. -/
def CUSB_INTERFACE_DESCRIPTOR_CTOR (bInterfaceClass bInterfaceSubClass bInterfaceProtocol : Nat) :
    cusb_interface_descriptor :=
  { bLength := 9, bDescriptorType := CUSB_INTERFACE_DESCRIPTOR_TYPE,
    bInterfaceNumber := 0, bAlternateSetting := 0, bNumEndpoints := 0,
    bInterfaceClass := bInterfaceClass, bInterfaceSubClass := bInterfaceSubClass,
    bInterfaceProtocol := bInterfaceProtocol, iInterface := 0 }

/-- A device descriptor accepted by `device_descriptor_valid` (USB 2.0,
8-byte endpoint0 packets), as `CUSB_DEVICE_DESCRIPTOR_CTOR` would build it. -/
def test_device_descriptor : cusb_device_descriptor :=
  { bLength := 18, bDescriptorType := 1, bcdUSB := 512, bDeviceClass := 0,
    bDeviceSubClass := 0, bDeviceProtocol := 0, bMaxPacketSize0 := 8,
    idVendor := 0, idProduct := 0, bcdDevice := 1, iManufacturer := 0,
    iProduct := 0, iSerialNumber := 0, bNumConfigurations := 0 }

/-- A constructed interface with no children, linked under its configuration. -/
def test_interface : cusb_interface :=
  { dnode := { in_list := true },
    descriptor := CUSB_INTERFACE_DESCRIPTOR_CTOR 0 0 0,
    alternate_interfaces := [], endpoints := [], strings := [] }

/-- A constructed configuration owning one interface, linked under the device. -/
def test_configuration : cusb_configuration :=
  { dnode := { in_list := true },
    descriptor := CUSB_CONFIGURATION_DESCRIPTOR_CTOR 0 50,
    interfaces := [test_interface], strings := [] }

/-- A device as built during setup: valid descriptor, no string zero, one
configuration holding one interface. -/
def test_device : cusbd :=
  { descriptor := test_device_descriptor, string0 := none,
    configurations := [test_configuration], manufacturer_strings := [],
    product_strings := [], serial_number_strings := [] }


/-- C1: the claim says a successful `cusbd_start` leaves every configuration
descriptor carrying its 1-based attachment position in bConfigurationValue
(and interfaces/alternates their positions). In the code the numbering
counters are local and never stored: the pass returns the configuration tree
unchanged, and on a one-configuration device the started configuration still
carries the constructor value 0, not 1. -/
theorem C1_start_never_assigns_numbering :
    (∀ (me d : cusbd), cusbd_start me = some d → d.configurations = me.configurations) ∧
    (cusbd_start test_device).map (fun d => d.configurations) = some [test_configuration] ∧
    test_configuration.descriptor.bConfigurationValue = 0 := by
  refine ⟨?_, by decide, by decide⟩
  intro me d h
  unfold cusbd_start at h
  split at h
  · split at h
    · split at h
      · cases h; rfl
      · cases h
    · cases h
  · cases h

/-- C2: the claim says an interface subtree is 9 bytes plus 7 per endpoint
plus alternates (so 23 for two endpoints, no alternates) and the example
configuration totals 30. `cusb_interface_size` overwrites its own 9-byte
header instead of adding to it, so the two-endpoint interface reports 14 and
the configuration reports 23. -/
theorem C2_interface_size_drops_own_header :
    cusb_interface_size
      { dnode := { in_list := true }, descriptor := CUSB_INTERFACE_DESCRIPTOR_CTOR 0 0 0,
        alternate_interfaces := [],
        endpoints :=
          [{ dnode := { in_list := true },
             descriptor := { bLength := 7, bDescriptorType := 5, bEndpointAddress := 129,
                             bmAttributes := 2, wMaxPacketSize := 64, bInterval := 0 },
             id := 0 },
           { dnode := { in_list := true },
             descriptor := { bLength := 7, bDescriptorType := 5, bEndpointAddress := 1,
                             bmAttributes := 2, wMaxPacketSize := 64, bInterval := 0 },
             id := 1 }],
        strings := [] } = 14 ∧
    cusb_configuration_size
      { dnode := { in_list := true }, descriptor := CUSB_CONFIGURATION_DESCRIPTOR_CTOR 0 50,
        interfaces :=
          [{ dnode := { in_list := true }, descriptor := CUSB_INTERFACE_DESCRIPTOR_CTOR 0 0 0,
             alternate_interfaces := [],
             endpoints :=
               [{ dnode := { in_list := true },
                  descriptor := { bLength := 7, bDescriptorType := 5, bEndpointAddress := 129,
                                  bmAttributes := 2, wMaxPacketSize := 64, bInterval := 0 },
                  id := 0 },
                { dnode := { in_list := true },
                  descriptor := { bLength := 7, bDescriptorType := 5, bEndpointAddress := 1,
                                  bmAttributes := 2, wMaxPacketSize := 64, bInterval := 0 },
                  id := 1 }],
             strings := [] }],
        strings := [] } = 23 := by
  constructor <;> rfl

/-- C3: the claim says endpoint validity is decided by the transfer/sync/usage
combination in bmAttributes. The code applies every BMATTRIBUTES_* mask to the
bEndpointAddress byte instead, so a descriptor whose bmAttributes byte 0xFF is
illegal under the claimed rule (interrupt transfer with nonzero sync and usage
bits) is still accepted, and two descriptors differing only in bmAttributes
(legal 0x02 vs illegal 0xFF) validate identically. -/
theorem C3_endpoint_validity_ignores_bmAttributes :
    endpoint_descriptor_valid
      { bLength := 7, bDescriptorType := 5, bEndpointAddress := 129,
        bmAttributes := 255, wMaxPacketSize := 64, bInterval := 0 } = true ∧
    spec_bmAttributes_legal 255 = false ∧
    endpoint_descriptor_valid
      { bLength := 7, bDescriptorType := 5, bEndpointAddress := 129,
        bmAttributes := 255, wMaxPacketSize := 64, bInterval := 0 } =
      endpoint_descriptor_valid
        { bLength := 7, bDescriptorType := 5, bEndpointAddress := 129,
          bmAttributes := 2, wMaxPacketSize := 64, bInterval := 0 } := by
  refine ⟨by decide, by decide, by decide⟩

/-- A string whose descriptor fails `string_descriptor_valid` (wrong
bDescriptorType), linked into a configuration's string list. -/
def test_bad_string : cusb_string :=
  { dnode := { in_list := true },
    descriptor := { bLength := 6, bDescriptorType := 7, bString := [72, 105, 0] },
    wLANGID := 1033 }

/-- C4: the claim says the finalize pass validates every node, strings
included, and fails on the first invalid one. `cusbd_start` never iterates any
strings list: a device whose configuration carries an invalid string (and
whose device-level manufacturer collection carries the same invalid string)
still starts successfully. -/
theorem C4_start_never_validates_strings :
    cusb_string_valid test_bad_string = false ∧
    (cusbd_start
      { descriptor := test_device_descriptor, string0 := none,
        configurations :=
          [{ dnode := { in_list := true },
             descriptor := CUSB_CONFIGURATION_DESCRIPTOR_CTOR 0 50,
             interfaces := [test_interface], strings := [test_bad_string] }],
        manufacturer_strings := [test_bad_string], product_strings := [],
        serial_number_strings := [] }).isSome = true := by
  refine ⟨by decide, by decide⟩

/-- C5: the claim says the pass fails on a device with zero configurations
(which the code does assert) and also fails when any configuration has zero
interfaces (which the code never checks): a device whose single configuration
owns no interface starts successfully. -/
theorem C5_start_accepts_interfaceless_configuration :
    cusbd_start
      { descriptor := test_device_descriptor, string0 := none, configurations := [],
        manufacturer_strings := [], product_strings := [], serial_number_strings := [] }
      = none ∧
    (cusbd_start
      { descriptor := test_device_descriptor, string0 := none,
        configurations :=
          [{ dnode := { in_list := true },
             descriptor := CUSB_CONFIGURATION_DESCRIPTOR_CTOR 0 50,
             interfaces := [], strings := [] }],
        manufacturer_strings := [], product_strings := [],
        serial_number_strings := [] }).isSome = true := by
  refine ⟨by decide, by decide⟩

/-- C7: the claim says `cusb_configuration_ctor` succeeds exactly when the
supplied descriptor satisfies `configuration_descriptor_valid`. The code
validates `&me->descriptor` — the uninitialised field of the object being
constructed — instead: it rejects a valid supplied descriptor when the
pre-call memory is invalid, and accepts an invalid supplied descriptor when
the pre-call memory happens to be valid. -/
theorem C7_configuration_ctor_checks_wrong_descriptor :
    configuration_descriptor_valid (CUSB_CONFIGURATION_DESCRIPTOR_CTOR 0 50) = true ∧
    cusb_configuration_ctor
      { dnode := { in_list := false },
        descriptor := { bLength := 0, bDescriptorType := 0, wTotalLength := 0,
                        bNumInterfaces := 0, bConfigurationValue := 0,
                        iConfiguration := 0, bmAttributes := 0, bMaxPower := 0 },
        interfaces := [], strings := [] }
      (CUSB_CONFIGURATION_DESCRIPTOR_CTOR 0 50) = none ∧
    configuration_descriptor_valid
      { bLength := 0, bDescriptorType := 0, wTotalLength := 0, bNumInterfaces := 0,
        bConfigurationValue := 0, iConfiguration := 0, bmAttributes := 0,
        bMaxPower := 0 } = false ∧
    (cusb_configuration_ctor
      { dnode := { in_list := false },
        descriptor := CUSB_CONFIGURATION_DESCRIPTOR_CTOR 0 50,
        interfaces := [], strings := [] }
      { bLength := 0, bDescriptorType := 0, wTotalLength := 0, bNumInterfaces := 0,
        bConfigurationValue := 0, iConfiguration := 0, bmAttributes := 0,
        bMaxPower := 0 }).isSome = true := by
  refine ⟨by decide, by decide, by decide, by decide⟩

/-- C9: the claim says a string zero built from N language IDs reports N from
`cusb_string_zero_langid_count` and sends all N IDs. The CTOR macro computes
`bLength = 2 + N` (element count) instead of `2 + 2N` (bytes): for the two
languages English (0x0409) and French (0x040C) the constructed descriptor is
accepted, the count comes out as 1, and send emits only the first ID. -/
theorem C9_string_zero_count_halved :
    cusb_string_zero_ctor (CUSB_STRING_DESCRIPTOR_ZERO_CTOR [1033, 1036]) =
      some { descriptor := CUSB_STRING_DESCRIPTOR_ZERO_CTOR [1033, 1036] } ∧
    cusb_string_zero_langid_count
      { descriptor := CUSB_STRING_DESCRIPTOR_ZERO_CTOR [1033, 1036] } = some 1 ∧
    cusb_string_zero_send
      { descriptor := CUSB_STRING_DESCRIPTOR_ZERO_CTOR [1033, 1036] } 4 =
      some [4, 3, 9, 4] := by
  refine ⟨by decide, by decide, by decide⟩

/-- C10: whenever `cusbd_start` returns successfully, the device descriptor's
iManufacturer, iProduct and iSerialNumber fields hold the reserved IDs 1, 2
and 3 — unconditionally, with no regard to string0 or the string collections,
because the assignments at the top of the pass are unguarded. -/
theorem C10_start_sets_fixed_string_indices (me d : cusbd)
    (h : cusbd_start me = some d) :
    d.descriptor.iManufacturer = CUSBD_MANUFACTURER_STRING_ID ∧
    d.descriptor.iProduct = CUSBD_PRODUCT_STRING_ID ∧
    d.descriptor.iSerialNumber = CUSBD_SERIAL_NUMBER_STRING_ID := by
  unfold cusbd_start at h
  split at h
  · split at h
    · split at h
      · cases h; exact ⟨rfl, rfl, rfl⟩
      · cases h
    · cases h
  · cases h

/-- C10 witness: the fixed-ID theorem applied to a concrete started device —
one with string0 unused and no manufacturer, product or serial-number strings
attached, where every string index nonetheless comes out 1, 2, 3. -/
theorem C10_witness :
    cusbd_start test_device =
      some { test_device with
               descriptor := { test_device.descriptor with
                                 iManufacturer := 1, iProduct := 2,
                                 iSerialNumber := 3, bNumConfigurations := 1 } } ∧
    (1 = CUSBD_MANUFACTURER_STRING_ID ∧ 2 = CUSBD_PRODUCT_STRING_ID ∧
     3 = CUSBD_SERIAL_NUMBER_STRING_ID) := by
  refine ⟨by decide, ?_⟩
  have h := C10_start_sets_fixed_string_indices test_device
    { test_device with
        descriptor := { test_device.descriptor with
                          iManufacturer := 1, iProduct := 2,
                          iSerialNumber := 3, bNumConfigurations := 1 } }
    (by decide)
  exact ⟨h.1.symm ▸ rfl, h.2.1.symm ▸ rfl, h.2.2.symm ▸ rfl⟩

/-- C6: `cusb_interface_add_endpoint` and
`cusb_alternate_interface_add_endpoint` fail exactly as the claim states:
they assert when the new endpoint's bEndpointAddress matches any endpoint
already directly owned by that same owner, succeed for a not-yet-linked
endpoint whose address differs from all of the owner's endpoints (so the
same address under two different interfaces is fine), and the endpoint object
returned by a successful attach is linked, so attaching that same object to
any second owner fails. -/
theorem C6_add_endpoint_address_rules :
    (∀ (me : cusb_interface) (endpoint : cusb_endpoint),
      (∃ e ∈ me.endpoints,
        e.descriptor.bEndpointAddress = endpoint.descriptor.bEndpointAddress) →
      cusb_interface_add_endpoint me endpoint = none) ∧
    (∀ (me : cusb_interface) (endpoint : cusb_endpoint),
      endpoint.dnode.in_list = false →
      (∀ e ∈ me.endpoints,
        e.descriptor.bEndpointAddress ≠ endpoint.descriptor.bEndpointAddress) →
      (cusb_interface_add_endpoint me endpoint).isSome = true) ∧
    (∀ (me : cusb_alternate_interface) (endpoint : cusb_endpoint),
      (∃ e ∈ me.endpoints,
        e.descriptor.bEndpointAddress = endpoint.descriptor.bEndpointAddress) →
      cusb_alternate_interface_add_endpoint me endpoint = none) ∧
    (∀ (me : cusb_alternate_interface) (endpoint : cusb_endpoint),
      endpoint.dnode.in_list = false →
      (∀ e ∈ me.endpoints,
        e.descriptor.bEndpointAddress ≠ endpoint.descriptor.bEndpointAddress) →
      (cusb_alternate_interface_add_endpoint me endpoint).isSome = true) ∧
    (∀ (a b : cusb_interface) (endpoint : cusb_endpoint)
       (a2 : cusb_interface) (linked : cusb_endpoint),
      cusb_interface_add_endpoint a endpoint = some (a2, linked) →
      cusb_interface_add_endpoint b linked = none) ∧
    (∀ (a : cusb_interface) (b : cusb_alternate_interface) (endpoint : cusb_endpoint)
       (a2 : cusb_interface) (linked : cusb_endpoint),
      cusb_interface_add_endpoint a endpoint = some (a2, linked) →
      cusb_alternate_interface_add_endpoint b linked = none) := by
  have hlinked : ∀ (a : cusb_interface) (endpoint : cusb_endpoint)
      (a2 : cusb_interface) (linked : cusb_endpoint),
      cusb_interface_add_endpoint a endpoint = some (a2, linked) →
      linked.dnode.in_list = true := by
    intro a endpoint a2 linked h
    unfold cusb_interface_add_endpoint at h
    split at h
    · split at h
      · cases h
      · cases h; rfl
    · cases h
  refine ⟨?_, ?_, ?_, ?_, ?_, ?_⟩
  · intro me endpoint hdup
    unfold cusb_interface_add_endpoint
    rw [if_neg]
    intro hall
    obtain ⟨e, he, heq⟩ := hdup
    have := List.all_eq_true.mp hall e he
    simp [heq] at this
  · intro me endpoint hfresh hall
    unfold cusb_interface_add_endpoint
    rw [if_pos, if_neg]
    · rfl
    · simp [hfresh]
    · exact List.all_eq_true.mpr (fun e he => by
        simpa using hall e he)
  · intro me endpoint hdup
    unfold cusb_alternate_interface_add_endpoint
    rw [if_neg]
    intro hall
    obtain ⟨e, he, heq⟩ := hdup
    have := List.all_eq_true.mp hall e he
    simp [heq] at this
  · intro me endpoint hfresh hall
    unfold cusb_alternate_interface_add_endpoint
    rw [if_pos, if_neg]
    · rfl
    · simp [hfresh]
    · exact List.all_eq_true.mpr (fun e he => by
        simpa using hall e he)
  · intro a b endpoint a2 linked h
    have hl := hlinked a endpoint a2 linked h
    unfold cusb_interface_add_endpoint
    simp [hl]
  · intro a b endpoint a2 linked h
    have hl := hlinked a endpoint a2 linked h
    unfold cusb_alternate_interface_add_endpoint
    simp [hl]

/-- Helper: each little-endian 16-bit value contributes exactly two bytes. -/
theorem flatten_map_le16_length (l : List Nat) :
    ((l.map le16_bytes).flatten).length = 2 * l.length := by
  induction l with
  | nil => rfl
  | cons a t ih =>
    simp only [List.map_cons, List.flatten_cons, List.length_append, ih,
      le16_bytes, List.length_cons, List.length_nil]
    omega

/-- Helper: indexing the first `n` elements of a list (as the send loops do
with `bString[i]` / `wLANGID[i]`) reads exactly its `n`-element prefix. -/
theorem range_map_getD (l : List Nat) (n : Nat) (h : n ≤ l.length) :
    (List.range n).map (fun i => l.getD i 0) = l.take n := by
  apply List.ext_getElem
  · simp [Nat.min_eq_left h]
  · intro i h1 h2
    simp only [List.getElem_map, List.getElem_range, List.getElem_take]
    rw [List.getD_eq_getElem]

/-- Helper: the bytes `cusb_string_send` produces once its assertions pass
and `cusb_string_character_count` yields `count`. -/
theorem cusb_string_send_eq (me : cusb_string) (len count : Nat)
    (hv : cusb_string_valid me = true) (hl : me.descriptor.bLength ≤ len)
    (hc : cusb_string_character_count me = some count) :
    cusb_string_send me len =
      some ([me.descriptor.bLength, me.descriptor.bDescriptorType] ++
        ((List.range count).map (fun i =>
          le16_bytes (me.descriptor.bString.getD i 0))).flatten) := by
  unfold cusb_string_send
  simp [hv, hc, ge_iff_le, hl]

/-- The zero-bLength string descriptor that refutes C8 as stated: accepted by
the constructor because `bLength - 4` wraps around in `size_t`. -/
def C8_zero_length_string : cusb_string :=
  { dnode := { in_list := false },
    descriptor := { bLength := 0, bDescriptorType := 3, bString := [] },
    wLANGID := 1033 }

/-- C8 counterexample: a descriptor with bLength = 0 (and correct type byte)
is accepted by `cusb_string_ctor` — the validity check's `size_t` subtraction
wraps — yet for it `cusb_string_character_count` wraps to 2^63 - 1, so
`cusb_string_send` emits 2^64 bytes, not bLength = 0 bytes. -/
theorem C8_counterexample :
    cusb_string_ctor { bLength := 0, bDescriptorType := 3, bString := [] } 1033 =
      some C8_zero_length_string ∧
    (cusb_string_send C8_zero_length_string 0).map List.length =
      some 18446744073709551616 := by
  constructor
  · decide
  · rw [cusb_string_send_eq C8_zero_length_string 0 9223372036854775807
      (by decide) (by decide) (by decide)]
    have h2 : (List.range 9223372036854775807).map
        (fun i => le16_bytes ((C8_zero_length_string.descriptor.bString).getD i 0)) =
        ((List.range 9223372036854775807).map
          (fun i => (C8_zero_length_string.descriptor.bString).getD i 0)).map le16_bytes := by
      rw [List.map_map]
      rfl
    rw [Option.map, h2]
    rw [List.length_append, flatten_map_le16_length, List.length_map,
      List.length_range]
    norm_num

/-- C8 (amended): for every string accepted by `cusb_string_ctor` whose
bLength is nonzero and every buffer with `len >= bLength`, `cusb_string_send`
writes exactly bLength contiguous bytes — bLength, then bDescriptorType, then
the first `(bLength - 2) / 2` UTF-16 code units of `bString` in little-endian
byte order, with no NUL terminator appended. (`hs` states that the descriptor
points at at least that many code units, which C leaves implicit in the
pointer and every `CUSB_STRING_DESCRIPTOR_CTOR` literal guarantees.) -/
theorem C8_string_send_writes_bLength_bytes (me : cusb_string) (len : Nat)
    (h8 : me.descriptor.bLength < 256) (h0 : me.descriptor.bLength ≠ 0)
    (hv : cusb_string_valid me = true)
    (hlen : me.descriptor.bLength ≤ len)
    (hs : (me.descriptor.bLength - 2) / 2 ≤ me.descriptor.bString.length) :
    cusb_string_send me len =
      some ([me.descriptor.bLength, me.descriptor.bDescriptorType] ++
        ((me.descriptor.bString.take ((me.descriptor.bLength - 2) / 2)).map
          le16_bytes).flatten) ∧
    ([me.descriptor.bLength, me.descriptor.bDescriptorType] ++
        ((me.descriptor.bString.take ((me.descriptor.bLength - 2) / 2)).map
          le16_bytes).flatten).length = me.descriptor.bLength := by
  have hv2 := hv
  unfold cusb_string_valid string_descriptor_valid at hv2
  simp only [Bool.and_eq_true, decide_eq_true_eq, beq_iff_eq] at hv2
  obtain ⟨⟨ha2, haeven⟩, htype⟩ := hv2
  have hkey : (me.descriptor.bLength + size_t_mod - 2) % size_t_mod =
        me.descriptor.bLength - 2 ∧
      2 + 2 * ((me.descriptor.bLength - 2) / 2) = me.descriptor.bLength ∧
      (me.descriptor.bLength - 2) % 2 = 0 := by
    unfold size_t_mod at ha2 haeven ⊢
    omega
  have hc : cusb_string_character_count me = some ((me.descriptor.bLength - 2) / 2) := by
    unfold cusb_string_character_count
    simp only [hkey.1]
    have hcond : ((me.descriptor.bLength - 2) % 2 == 0) = true := by
      simpa using hkey.2.2
    rw [if_pos hcond]
  have hsend := cusb_string_send_eq me len ((me.descriptor.bLength - 2) / 2) hv hlen hc
  have hunits : (List.range ((me.descriptor.bLength - 2) / 2)).map
      (fun i => le16_bytes (me.descriptor.bString.getD i 0)) =
      (me.descriptor.bString.take ((me.descriptor.bLength - 2) / 2)).map le16_bytes := by
    have hcomp : (fun i => le16_bytes (me.descriptor.bString.getD i 0)) =
        le16_bytes ∘ (fun i => me.descriptor.bString.getD i 0) := rfl
    rw [hcomp, ← List.map_map, range_map_getD me.descriptor.bString _ hs]
  refine ⟨?_, ?_⟩
  · rw [hsend, hunits]
  · rw [List.length_append, flatten_map_le16_length, List.length_take,
      Nat.min_eq_left hs]
    have h2 := hkey.2.1
    simp only [List.length_cons, List.length_nil]
    omega

/-- C8 witness: the amended send theorem applied to the two-character string
"Hi" built by `CUSB_STRING_DESCRIPTOR_CTOR` (bLength 6): the emitted bytes
are 6, 3, then 0x48 and 0x69 in little endian, with no NUL. -/
theorem C8_witness :
    cusb_string_send
      { dnode := { in_list := false },
        descriptor := CUSB_STRING_DESCRIPTOR_CTOR [72, 105], wLANGID := 1033 } 6 =
      some [6, 3, 72, 0, 105, 0] := by
  have h := C8_string_send_writes_bLength_bytes
    { dnode := { in_list := false },
      descriptor := CUSB_STRING_DESCRIPTOR_CTOR [72, 105], wLANGID := 1033 } 6
    (by decide) (by decide) (by decide) (by decide) (by decide)
  exact h.1.trans (by decide)
